import Mathlib

/-!
Verification of the real-time synchronization client of the hycon_test
repository (frontend/src/contexts/WebSocketContext.jsx, bundled in
src/frontend/src/contexts/AuthContext.jsx).

The client is a React context managing a single WebSocket: `connect`
creates the socket and installs `onopen` / `onmessage` / `onclose` /
`onerror` handlers, `disconnect` tears everything down, `sendPing` runs on
a 30 s interval while connected, and `handleMessage` dispatches inbound
envelopes to cache invalidations.

We embed the mutable refs and React state of the provider as a record
`MachineState`, the handler bodies as pure functions from state to
state plus a list of observable `Effect`s (socket creations, frames sent,
socket closes, query invalidations, scheduled reconnect timeouts, log
lines), and the browser/timer environment as an `Event` alphabet consumed
by a `step` function.  `run` folds `step` over an event list.

Modelling conventions:
- `token : Option String` models the JS token value, `none` standing for
  a falsy token (null / empty string), matching the `!token` and
  `if (token)` guards in the source.
- `reconnectTimer : Option Nat` is `reconnectTimeoutRef`: `some id` when
  a live reconnect timeout is pending.  `clearTimeout` on an already
  fired id is a no-op in JS, so we null the ref when the timer fires;
  this is observationally equivalent to the stale-id behaviour.
- `pingInterval : Option Nat` is `pingIntervalRef`, carrying the interval
  period (the source always uses `PING_INTERVAL`).
- JSON.parse of the inbound frame is a platform primitive, so a frame is
  delivered already parsed: `none` when JSON.parse throws (the catch arm
  of `handleMessage`), `some m` with `m.type_ : Option String` otherwise
  (`none` models an object without a `type` field, which falls to the
  `default` arm of the switch just like an unknown tag).
- The browser fires `onopen` only on a CONNECTING socket and `onclose`
  at most once, never on an already-CLOSED socket; `step` encodes this
  delivery discipline while the raw handler bodies (`onopen`, `onclose`,
  `onerror`) are translated without any such guard, exactly as written.
-/

namespace HyconWS

/-- WebSocket readyState values. -/
inductive ReadyState where
  | connecting
  | openSt
  | closingSt
  | closedSt
deriving DecidableEq, Repr

/-- A WebSocket object: its identity and transport readyState. -/
structure Conn where
  id : Nat
  readyState : ReadyState
deriving DecidableEq, Repr

/-- A parsed inbound envelope: the `type` field if present. The payload is
opaque to the dispatcher. -/
structure ParsedMsg where
  type_ : Option String
deriving DecidableEq, Repr

/-- Outbound frames the client sends. -/
inductive Frame where
  | auth (token : String)
  | ping
deriving DecidableEq, Repr

/-- Observable side effects of a handler invocation. -/
inductive Effect where
  | createdWS (id : Nat)
  | sent (f : Frame)
  | closedWS (id : Nat) (code : Nat)
  | invalidated (key : String)
  | scheduledReconnect (delay : Nat)
  | logged (tag : String)
deriving DecidableEq, Repr

/-- The provider's refs and React state:
`wsRef`, `reconnectTimeoutRef`, `reconnectAttemptsRef`, `pingIntervalRef`,
`isConnected`, `connectionError`, `usePolling`, plus a fresh-id counter
for sockets and timers. -/
structure MachineState where
  wsRef : Option Conn
  reconnectTimer : Option Nat
  reconnectAttempts : Nat
  pingInterval : Option Nat
  isConnected : Bool
  connectionError : Option String
  usePolling : Bool
  nextId : Nat
deriving DecidableEq, Repr

/-- The surrounding auth context: `isAuthenticated` and `token` as read by
the `connect` closure. -/
structure Env where
  isAuthenticated : Bool
  token : Option String
deriving DecidableEq, Repr

def MAX_RECONNECT_ATTEMPTS : Nat := 5
def RECONNECT_DELAY : Nat := 5000
def PING_INTERVAL : Nat := 30000

/-- Initial state of a freshly mounted provider: all refs null, counter 0,
not connected, no error, not polling. -/
def initState : MachineState :=
  { wsRef := none
    reconnectTimer := none
    reconnectAttempts := 0
    pingInterval := none
    isConnected := false
    connectionError := none
    usePolling := false
    nextId := 0 }

/-- `handleMessage`: parse result to dispatch effects.  A parse failure is
caught and logged; recognized types invalidate their query keys; `pong`,
`auth_success` and `error` only log; anything else falls to the `default`
arm and is logged as unknown. -/
def handleMessage (d : Option ParsedMsg) : List Effect :=
  match d with
  | none => [.logged "parse_error"]
  | some m =>
    .logged "message_received" ::
    match m.type_ with
    | some "equipment_update" =>
        [.invalidated "equipment", .logged "equipment_invalidated"]
    | some "session_update" =>
        [.invalidated "sessions", .invalidated "my-sessions",
         .invalidated "active-sessions", .logged "session_invalidated"]
    | some "sample_update" =>
        [.invalidated "inbox", .invalidated "unread-count",
         .invalidated "submissions", .logged "sample_invalidated"]
    | some "pong" => [.logged "pong_received"]
    | some "auth_success" => [.logged "auth_successful"]
    | some "error" => [.logged "server_error"]
    | _ => [.logged "unknown_type"]

/-- `sendPing`: sends `{type: 'ping'}` only when a socket exists and its
readyState is OPEN; a send failure (`sendOk = false`) is caught and
logged without touching any state. -/
def sendPing (sendOk : Bool) (s : MachineState) : List Effect :=
  match s.wsRef with
  | some c =>
    if c.readyState = ReadyState.openSt then
      if sendOk then [.sent .ping, .logged "ping_sent"]
      else [.logged "ping_send_error"]
    else []
  | none => []

/-- `startPingInterval`: clears any existing interval and installs a new
one with period `PING_INTERVAL`. -/
def startPingInterval (s : MachineState) : MachineState :=
  { s with pingInterval := some PING_INTERVAL }

/-- `stopPingInterval`: clears the interval if one is set. -/
def stopPingInterval (s : MachineState) : MachineState :=
  { s with pingInterval := none }

/-- Body of `ws.onopen`: mark connected, clear the error, clear polling
mode, reset the retry counter to 0, send the auth envelope when the token
is truthy, and start the heartbeat interval. -/
def onopen (env : Env) (s : MachineState) : MachineState × List Effect :=
  let s1 := { s with isConnected := true
                     connectionError := none
                     usePolling := false
                     reconnectAttempts := 0 }
  let authEff : List Effect :=
    match env.token with
    | some t => [.sent (.auth t)]
    | none => []
  (startPingInterval s1, .logged "connected" :: authEff)

/-- Body of `ws.onclose`: mark disconnected, stop the heartbeat, and on an
abnormal closure code (anything other than 1000) increment the retry
counter and schedule `connect` after `RECONNECT_DELAY`. -/
def onclose (code : Nat) (s : MachineState) : MachineState × List Effect :=
  let s1 := stopPingInterval { s with isConnected := false }
  if code ≠ 1000 then
    ({ s1 with reconnectAttempts := s1.reconnectAttempts + 1
               reconnectTimer := some s1.nextId
               nextId := s1.nextId + 1 },
     [.logged "disconnected", .scheduledReconnect RECONNECT_DELAY])
  else
    (s1, [.logged "disconnected"])

/-- Body of `ws.onerror`: record the error, mark disconnected, stop the
heartbeat.  It neither increments the counter nor schedules a retry. -/
def onerror (s : MachineState) : MachineState × List Effect :=
  (stopPingInterval
     { s with connectionError := some "WebSocket connection failed"
              isConnected := false },
   [.logged "ws_error"])

/-- `connect`: skip when unauthenticated or the token is falsy; when the
retry counter has reached `MAX_RECONNECT_ATTEMPTS`, flip to polling mode
and return without creating a socket; otherwise construct a WebSocket
(overwriting `wsRef`).  If the constructor throws (`ctorOk = false`), the
catch arm records the error, increments the counter, and either flips to
polling (cap reached) or schedules a retry. -/
def connect (env : Env) (ctorOk : Bool) (s : MachineState) :
    MachineState × List Effect :=
  if ¬ (env.isAuthenticated ∧ env.token.isSome) then
    (s, [.logged "not_authenticated_skip"])
  else if s.reconnectAttempts ≥ MAX_RECONNECT_ATTEMPTS then
    ({ s with usePolling := true
              connectionError := some "WebSocket unavailable - using polling mode" },
     [.logged "max_attempts_polling"])
  else if ctorOk then
    ({ s with wsRef := some ⟨s.nextId, ReadyState.connecting⟩
              nextId := s.nextId + 1 },
     [.logged "connecting", .createdWS s.nextId])
  else
    let s1 := { s with connectionError := some "Connection failed"
                       reconnectAttempts := s.reconnectAttempts + 1 }
    if s1.reconnectAttempts ≥ MAX_RECONNECT_ATTEMPTS then
      ({ s1 with usePolling := true },
       [.logged "ws_ctor_failed", .logged "polling_fallback"])
    else
      ({ s1 with reconnectTimer := some s1.nextId, nextId := s1.nextId + 1 },
       [.logged "ws_ctor_failed", .scheduledReconnect RECONNECT_DELAY])

/-- `disconnect`: stop the heartbeat, cancel any pending reconnect
timeout, close the socket with normal-closure code 1000 and null the ref,
and mark disconnected. -/
def disconnect (s : MachineState) : MachineState × List Effect :=
  let s1 := stopPingInterval s
  let s2 := { s1 with reconnectTimer := none }
  match s2.wsRef with
  | some c =>
    ({ s2 with wsRef := none, isConnected := false },
     [.logged "disconnecting", .closedWS c.id 1000])
  | none =>
    ({ s2 with isConnected := false }, [.logged "disconnecting"])

/-- External stimuli: manual `connect` invocation, the reconnect timeout
firing, transport open / close / error events delivered by the browser on
the current socket, an inbound frame, a heartbeat interval tick, and a
`disconnect` invocation. -/
inductive Event where
  | connectCall (ctorOk : Bool)
  | timerFire (ctorOk : Bool)
  | transportOpen
  | message (d : Option ParsedMsg)
  | transportClose (code : Nat)
  | transportError
  | pingTick (sendOk : Bool)
  | disconnectCall
deriving DecidableEq, Repr

/-- One event step.  Browser delivery discipline: `onopen` fires only on a
CONNECTING socket (which becomes OPEN), `onclose` only on a socket not yet
CLOSED (which becomes CLOSED), `onerror` only while a socket exists; the
reconnect timeout and the ping interval fire only while installed. -/
def step (env : Env) (e : Event) (s : MachineState) :
    MachineState × List Effect :=
  match e with
  | .connectCall ok => connect env ok s
  | .timerFire ok =>
    match s.reconnectTimer with
    | some _ => connect env ok { s with reconnectTimer := none }
    | none => (s, [])
  | .transportOpen =>
    match s.wsRef with
    | some c =>
      if c.readyState = ReadyState.connecting then
        onopen env { s with wsRef := some ⟨c.id, ReadyState.openSt⟩ }
      else (s, [])
    | none => (s, [])
  | .message d => (s, handleMessage d)
  | .transportClose code =>
    match s.wsRef with
    | some c =>
      if c.readyState ≠ ReadyState.closedSt then
        onclose code { s with wsRef := some ⟨c.id, ReadyState.closedSt⟩ }
      else (s, [])
    | none => (s, [])
  | .transportError =>
    match s.wsRef with
    | some _ => onerror s
    | none => (s, [])
  | .pingTick ok =>
    match s.pingInterval with
    | some _ => (s, sendPing ok s)
    | none => (s, [])
  | .disconnectCall => disconnect s

/-- Fold `step` over an event list, accumulating effects. -/
def run (env : Env) (s : MachineState) : List Event → MachineState × List Effect
  | [] => (s, [])
  | e :: es =>
    let p := step env e s
    let q := run env p.1 es
    (q.1, p.2 ++ q.2)

/-- An authenticated environment with a fixed token, used in traces. -/
def env0 : Env := ⟨true, some "tok"⟩

/-- Effect classifiers. -/
def isLog : Effect → Bool
  | .logged _ => true
  | _ => false

def isCreate : Effect → Bool
  | .createdWS _ => true
  | _ => false

def isSched : Effect → Bool
  | .scheduledReconnect _ => true
  | _ => false

def isInval : Effect → Bool
  | .invalidated _ => true
  | _ => false

/-- Five consecutive failed connection attempts: each created socket's
transport closes abnormally (code 1006), each close schedules the
reconnect timeout, and the sixth (automatic) `connect` invocation hits
the attempt cap. -/
def failTrace : List Event :=
  [.connectCall true, .transportClose 1006, .timerFire true,
   .transportClose 1006, .timerFire true, .transportClose 1006,
   .timerFire true, .transportClose 1006, .timerFire true,
   .transportClose 1006, .timerFire true]

/-- The state reached after `failTrace`: degraded/polling mode. -/
def degradedState : MachineState := (run env0 initState failTrace).1

/-- A single successful connection: socket created, transport opens. -/
def openTrace : List Event := [.connectCall true, .transportOpen]

/-- The state reached after `openTrace`: connected, heartbeat running. -/
def openState : MachineState := (run env0 initState openTrace).1

/-- A connection whose transport fails once and is retried: the retry
counter is 1 and a fresh socket is CONNECTING. -/
def oneFailTrace : List Event :=
  [.connectCall true, .transportClose 1006, .timerFire true]

/-- `oneFailTrace` followed by a transport open with no `auth_success`
ever delivered. -/
def oneFailThenOpenTrace : List Event := oneFailTrace ++ [.transportOpen]

/-- The envelope `type` tags the dispatcher's switch recognizes. -/
def recognizedTypes : List (Option String) :=
  [some "equipment_update", some "session_update", some "sample_update",
   some "pong", some "auth_success", some "error"]

/-- `handleMessage` only ever logs or invalidates queries: it never sends
a frame, closes a socket, creates a socket or schedules a timer. -/
theorem handleMessage_only_log_inval (d : Option ParsedMsg) :
    (handleMessage d).all (fun e => isLog e || isInval e) = true := by
  cases d with
  | none => rfl
  | some m =>
    simp only [handleMessage]
    split <;> simp [isLog, isInval]

/-- `connect` at or above the attempt cap: the counter and socket ref are
untouched, polling mode is preserved (or newly set), and the only effects
are log lines — in particular no socket is created and no retry is
scheduled. -/
theorem connect_at_cap (env : Env) (ok : Bool) (s : MachineState)
    (h : MAX_RECONNECT_ATTEMPTS ≤ s.reconnectAttempts) :
    (connect env ok s).1.reconnectAttempts = s.reconnectAttempts ∧
    (connect env ok s).1.wsRef = s.wsRef ∧
    (s.usePolling = true → (connect env ok s).1.usePolling = true) ∧
    (connect env ok s).2.all isLog = true := by
  unfold connect
  by_cases ha : env.isAuthenticated = true ∧ env.token.isSome = true
  · rw [if_neg (not_not_intro ha), if_pos h]
    simp [isLog]
  · rw [if_pos ha]
    simp [isLog]

/-- `connect` at the cap also leaves the pending reconnect timeout
untouched. -/
theorem connect_at_cap_timer (env : Env) (ok : Bool) (s : MachineState)
    (h : MAX_RECONNECT_ATTEMPTS ≤ s.reconnectAttempts) :
    (connect env ok s).1.reconnectTimer = s.reconnectTimer := by
  unfold connect
  by_cases ha : env.isAuthenticated = true ∧ env.token.isSome = true
  · rw [if_neg (not_not_intro ha), if_pos h]
  · rw [if_pos ha]

/-- A list of pure log effects contains no socket creation and no
scheduled retry. -/
theorem all_isLog_no_create_sched (l : List Effect) (h : l.all isLog = true) :
    l.countP isCreate = 0 ∧ l.countP isSched = 0 := by
  constructor <;>
  · rw [List.countP_eq_zero]
    intro a ha
    have hl := List.all_eq_true.mp h a ha
    cases a <;> simp [isLog] at hl
    simp [isCreate, isSched]

/-- A list of log/invalidation effects contains no socket creation, no
frame send, no socket close and no scheduled retry. -/
theorem all_log_inval_harmless (l : List Effect)
    (h : l.all (fun e => isLog e || isInval e) = true) :
    l.countP isCreate = 0 ∧ l.countP isSched = 0 ∧
    (∀ f, Effect.sent f ∉ l) ∧ (∀ i c, Effect.closedWS i c ∉ l) := by
  refine ⟨?_, ?_, ?_, ?_⟩
  · rw [List.countP_eq_zero]
    intro a ha
    have hl := List.all_eq_true.mp h a ha
    cases a <;> simp [isLog, isInval] at hl <;> simp [isCreate]
  · rw [List.countP_eq_zero]
    intro a ha
    have hl := List.all_eq_true.mp h a ha
    cases a <;> simp [isLog, isInval] at hl <;> simp [isSched]
  · intro f hf
    have hl := List.all_eq_true.mp h _ hf
    simp [isLog, isInval] at hl
  · intro i c hc
    have hl := List.all_eq_true.mp h _ hc
    simp [isLog, isInval] at hl

/-- `sendPing` never constructs a socket or schedules a retry. -/
theorem sendPing_effects (ok : Bool) (s : MachineState) :
    (sendPing ok s).countP isCreate = 0 ∧ (sendPing ok s).countP isSched = 0 := by
  rcases s with ⟨ws, rt, ra, pi, ic, ce, up, ni⟩
  cases ws with
  | none => exact ⟨rfl, rfl⟩
  | some c =>
    rcases c with ⟨i, rs⟩
    cases rs <;> cases ok <;> exact ⟨rfl, rfl⟩

/-- C1: after exactly five consecutive failed connection attempts
(abnormal closes, each followed by the 5 s reconnect timeout), the client
is in degraded/polling mode: `usePolling = true`, the counter sits at the
cap `MAX_RECONNECT_ATTEMPTS = 5`, exactly five sockets were constructed
over the whole run (the sixth, automatic, `connect` invocation constructs
none), and no reconnect timeout or heartbeat interval remains armed.
Moreover, from any state at the cap, a firing reconnect timeout produces
only log output: no socket is constructed, no retry is scheduled, the
counter and socket ref are unchanged and no timer remains. -/
theorem C1_degradation_cap :
    degradedState.usePolling = true ∧
    degradedState.reconnectAttempts = MAX_RECONNECT_ATTEMPTS ∧
    degradedState.reconnectTimer = none ∧
    degradedState.pingInterval = none ∧
    (run env0 initState failTrace).2.countP isCreate = 5 ∧
    ∀ (env : Env) (ok : Bool) (s : MachineState),
      MAX_RECONNECT_ATTEMPTS ≤ s.reconnectAttempts →
      (step env (.timerFire ok) s).2.countP isCreate = 0 ∧
      (step env (.timerFire ok) s).2.countP isSched = 0 ∧
      (step env (.timerFire ok) s).1.reconnectAttempts = s.reconnectAttempts ∧
      (step env (.timerFire ok) s).1.reconnectTimer = none ∧
      (step env (.timerFire ok) s).1.wsRef = s.wsRef := by
  refine ⟨by decide, by decide, by decide, by decide, by decide, ?_⟩
  intro env ok s h
  cases hrt : s.reconnectTimer with
  | none => simp [step, hrt]
  | some t =>
    have hcap := connect_at_cap env ok { s with reconnectTimer := none } h
    have htim := connect_at_cap_timer env ok { s with reconnectTimer := none } h
    have heff := all_isLog_no_create_sched _ hcap.2.2.2
    simp only [step, hrt]
    exact ⟨heff.1, heff.2, hcap.1, htim, hcap.2.1⟩

/-- Witness for C1 at the concrete degraded state. -/
theorem C1_degradation_cap_witness :
    MAX_RECONNECT_ATTEMPTS ≤ degradedState.reconnectAttempts ∧
    (step env0 (.timerFire true) degradedState).2.countP isCreate = 0 ∧
    (step env0 (.timerFire true) degradedState).1.reconnectAttempts
      = degradedState.reconnectAttempts :=
  ⟨by decide,
   (C1_degradation_cap.2.2.2.2.2 env0 true degradedState (by decide)).1,
   (C1_degradation_cap.2.2.2.2.2 env0 true degradedState (by decide)).2.2.1⟩

/-- C2 counterexample: in a run with one failed attempt (counter = 1)
whose retried socket's transport then opens, the counter drops to 0 even
though the trace delivers no inbound frame at all — in particular no
`auth_success` envelope.  This contradicts the claim that the counter is
reset exactly on `auth_success` and not before. -/
theorem C2_counter_reset_without_auth_cex :
    (oneFailThenOpenTrace.all fun e => match e with
      | Event.message _ => false
      | _ => true) = true ∧
    (run env0 initState oneFailTrace).1.reconnectAttempts = 1 ∧
    (run env0 initState oneFailThenOpenTrace).1.reconnectAttempts = 0 := by
  exact ⟨by decide, by decide, by decide⟩

/-- C2 amended: the retry counter is reset to 0 inside the transport-open
handler (`ws.onopen`), before any authentication reply; the
`auth_success` arm of `handleMessage` only logs and leaves the whole
machine state unchanged. -/
theorem C2_reset_on_transport_open :
    (∀ (env : Env) (s : MachineState) (c : Conn),
      s.wsRef = some c → c.readyState = ReadyState.connecting →
      (step env .transportOpen s).1.reconnectAttempts = 0) ∧
    (∀ (env : Env) (s : MachineState),
      (step env (.message (some ⟨some "auth_success"⟩)) s).1 = s) := by
  constructor
  · intro env s c hws hrs
    simp [step, hws, hrs, onopen, startPingInterval]
  · intro env s
    simp [step]

/-- Witness for C2 at the retried socket of `oneFailTrace`. -/
theorem C2_reset_on_transport_open_witness :
    (run env0 initState oneFailTrace).1.wsRef
      = some ⟨2, ReadyState.connecting⟩ ∧
    (step env0 .transportOpen (run env0 initState oneFailTrace).1).1.reconnectAttempts = 0 ∧
    (step env0 (.message (some ⟨some "auth_success"⟩)) openState).1 = openState :=
  ⟨by decide,
   C2_reset_on_transport_open.1 env0 _ ⟨2, ReadyState.connecting⟩ (by decide) rfl,
   C2_reset_on_transport_open.2 env0 openState⟩

/-- The socket ref, if still set, holds an already-closed socket. -/
def sockClosed : Option Conn → Bool
  | some c =>
    match c.readyState with
    | ReadyState.closedSt => true
    | _ => false
  | none => true

/-- Degraded mode: counter at the cap, polling flag set, any remaining
socket already closed. -/
def degraded (s : MachineState) : Bool :=
  decide (MAX_RECONNECT_ATTEMPTS ≤ s.reconnectAttempts) &&
  s.usePolling && sockClosed s.wsRef

/-- C3 counterexample: from the concrete degraded state, a manual
`connect` invocation does not attempt live mode — no socket is created,
`usePolling` stays `true`, the counter stays at the cap, and the socket
ref is unchanged.  This contradicts the claim that a subsequent `start()`
can succeed and clear degraded mode. -/
theorem C3_degraded_manual_start_cex :
    degradedState.usePolling = true ∧
    (step env0 (.connectCall true) degradedState).2.countP isCreate = 0 ∧
    (step env0 (.connectCall true) degradedState).1.usePolling = true ∧
    (step env0 (.connectCall true) degradedState).1.reconnectAttempts
      = MAX_RECONNECT_ATTEMPTS ∧
    (step env0 (.connectCall true) degradedState).1.wsRef
      = degradedState.wsRef := by
  exact ⟨by decide, by decide, by decide, by decide, by decide⟩

/-- C3 amended: degraded mode is permanent for the lifetime of the
provider.  Because `connect` checks the attempt cap before creating a
socket and the counter is reset only inside `ws.onopen`, every event —
including a manual `connect` — preserves degradation: no socket is ever
constructed again, `usePolling` is never cleared, and the counter never
drops below the cap (live mode can only return when the provider is
remounted with fresh refs). -/
theorem C3_degraded_permanent :
    ∀ (env : Env) (e : Event) (s : MachineState), degraded s = true →
      degraded (step env e s).1 = true ∧
      (step env e s).2.countP isCreate = 0 ∧
      (step env e s).1.usePolling = true ∧
      MAX_RECONNECT_ATTEMPTS ≤ (step env e s).1.reconnectAttempts := by
  intro env e s h
  simp only [degraded, Bool.and_eq_true, decide_eq_true_eq] at h
  obtain ⟨⟨h1, h2⟩, h3⟩ := h
  cases e with
  | connectCall ok =>
    have hcap := connect_at_cap env ok s h1
    have heff := all_isLog_no_create_sched _ hcap.2.2.2
    have hup := hcap.2.2.1 h2
    refine ⟨?_, heff.1, hup, by rw [show (step env (.connectCall ok) s) = connect env ok s from rfl, hcap.1]; exact h1⟩
    simp only [degraded, Bool.and_eq_true, decide_eq_true_eq, step]
    exact ⟨⟨by rw [hcap.1]; exact h1, hup⟩, by rw [hcap.2.1]; exact h3⟩
  | timerFire ok =>
    cases hrt : s.reconnectTimer with
    | none =>
      simp only [step, hrt]
      exact ⟨by simp [degraded, h1, h2, h3], rfl, h2, h1⟩
    | some t =>
      have hcap := connect_at_cap env ok { s with reconnectTimer := none } h1
      have heff := all_isLog_no_create_sched _ hcap.2.2.2
      have hup := hcap.2.2.1 h2
      simp only [step, hrt]
      refine ⟨?_, heff.1, hup, by rw [hcap.1]; exact h1⟩
      simp only [degraded, Bool.and_eq_true, decide_eq_true_eq]
      exact ⟨⟨by rw [hcap.1]; exact h1, hup⟩, by rw [hcap.2.1]; exact h3⟩
  | transportOpen =>
    cases hws : s.wsRef with
    | none =>
      simp only [step, hws]
      exact ⟨by simp [degraded, h1, h2, h3], rfl, h2, h1⟩
    | some c =>
      have hcs : c.readyState = ReadyState.closedSt := by
        rw [hws] at h3
        rcases c with ⟨i, rs⟩
        cases rs <;> simp [sockClosed] at h3
        rfl
      simp only [step, hws, hcs]
      exact ⟨by simp [degraded, h1, h2, h3], rfl, h2, h1⟩
  | message d =>
    have heff := all_log_inval_harmless _ (handleMessage_only_log_inval d)
    simp only [step]
    exact ⟨by simp [degraded, h1, h2, h3], heff.1, h2, h1⟩
  | transportClose code =>
    cases hws : s.wsRef with
    | none =>
      simp only [step, hws]
      exact ⟨by simp [degraded, h1, h2, h3], rfl, h2, h1⟩
    | some c =>
      have hcs : c.readyState = ReadyState.closedSt := by
        rw [hws] at h3
        rcases c with ⟨i, rs⟩
        cases rs <;> simp [sockClosed] at h3
        rfl
      simp only [step, hws, hcs, ne_eq, not_true_eq_false, if_false]
      exact ⟨by simp [degraded, h1, h2, h3], rfl, h2, h1⟩
  | transportError =>
    cases hws : s.wsRef with
    | none =>
      simp only [step, hws]
      exact ⟨by simp [degraded, h1, h2, h3], rfl, h2, h1⟩
    | some c =>
      rw [hws] at h3
      simp only [step, hws, onerror, stopPingInterval]
      exact ⟨by simp [degraded, h1, h2, h3], rfl, h2, h1⟩
  | pingTick ok =>
    cases hpi : s.pingInterval with
    | none =>
      simp only [step, hpi]
      exact ⟨by simp [degraded, h1, h2, h3], rfl, h2, h1⟩
    | some p =>
      simp only [step, hpi]
      exact ⟨by simp [degraded, h1, h2, h3], (sendPing_effects ok s).1, h2, h1⟩
  | disconnectCall =>
    cases hws : s.wsRef with
    | none =>
      simp only [step, disconnect, stopPingInterval, hws]
      exact ⟨by simp [degraded, sockClosed, h1, h2], rfl, h2, h1⟩
    | some c =>
      simp only [step, disconnect, stopPingInterval, hws]
      exact ⟨by simp [degraded, sockClosed, h1, h2], rfl, h2, h1⟩

/-- Witness for C3 at the concrete degraded state under a manual
reconnect attempt. -/
theorem C3_degraded_permanent_witness :
    degraded degradedState = true ∧
    degraded (step env0 (.connectCall false) degradedState).1 = true ∧
    (step env0 (.connectCall false) degradedState).1.usePolling = true :=
  ⟨by decide,
   (C3_degraded_permanent env0 (.connectCall false) degradedState (by decide)).1,
   (C3_degraded_permanent env0 (.connectCall false) degradedState (by decide)).2.2.1⟩

/-- C4 counterexample: over the concrete successful-open run the auth
envelope is sent, but no timer is scheduled besides the heartbeat
interval, and a heartbeat tick (30 s of elapsed time) leaves the machine
connected even though no `auth_success` was ever delivered — there is no
authentication timeout and no fall into a CLOSED/retry path. -/
theorem C4_no_auth_timeout_cex :
    Effect.sent (.auth "tok") ∈ (run env0 initState openTrace).2 ∧
    (run env0 initState openTrace).2.countP isSched = 0 ∧
    openState.reconnectTimer = none ∧
    openState.pingInterval = some PING_INTERVAL ∧
    openState.isConnected = true ∧
    (step env0 (.pingTick true) openState).1 = openState := by
  exact ⟨by decide, by decide, by decide, by decide, by decide, by decide⟩

/-- C4 amended: on transport-open success the client sends the auth
envelope (type `auth` carrying the current token) and starts the
heartbeat interval, but no authentication timeout of any kind: the open
handler schedules no timer, leaves the reconnect timeout slot untouched,
and marks the machine connected — a connection that never receives
`auth_success` simply stays connected. -/
theorem C4_auth_sent_but_no_timeout :
    ∀ (env : Env) (s : MachineState) (c : Conn) (t : String),
      s.wsRef = some c → c.readyState = ReadyState.connecting →
      env.token = some t →
      Effect.sent (.auth t) ∈ (step env .transportOpen s).2 ∧
      (step env .transportOpen s).2.countP isSched = 0 ∧
      (step env .transportOpen s).1.reconnectTimer = s.reconnectTimer ∧
      (step env .transportOpen s).1.pingInterval = some PING_INTERVAL ∧
      (step env .transportOpen s).1.isConnected = true := by
  intro env s c t hws hrs htok
  simp [step, hws, hrs, onopen, startPingInterval, htok, isSched]

/-- Witness for C4 at the freshly created socket. -/
theorem C4_auth_sent_but_no_timeout_witness :
    (run env0 initState [Event.connectCall true]).1.wsRef
      = some ⟨0, ReadyState.connecting⟩ ∧
    Effect.sent (.auth "tok")
      ∈ (step env0 .transportOpen (run env0 initState [Event.connectCall true]).1).2 :=
  ⟨by decide,
   (C4_auth_sent_but_no_timeout env0 _ ⟨0, ReadyState.connecting⟩ "tok"
     (by decide) rfl rfl).1⟩

/-- A failed ping send never sends a frame and never schedules a
retry. -/
theorem sendPing_fail_effects (s : MachineState) :
    (sendPing false s).countP isSched = 0 ∧
    ∀ f, Effect.sent f ∉ sendPing false s := by
  rcases s with ⟨ws, rt, ra, pi, ic, ce, up, ni⟩
  cases ws with
  | none =>
    refine ⟨rfl, ?_⟩
    intro f hf
    simp [sendPing] at hf
  | some c =>
    rcases c with ⟨i, rs⟩
    cases rs
    all_goals refine ⟨rfl, ?_⟩
    all_goals intro f hf
    all_goals simp [sendPing] at hf

/-- C5 counterexample: in the concrete connected state a heartbeat tick
whose send fails produces only a log line: the machine state is unchanged
(still connected — no CLOSED transition) and zero reconnects are
scheduled, where the claim demands a closure and exactly one reconnect. -/
theorem C5_ping_send_failure_cex :
    openState.isConnected = true ∧
    (step env0 (.pingTick false) openState).1 = openState ∧
    (step env0 (.pingTick false) openState).2
      = [Effect.logged "ping_send_error"] ∧
    (step env0 (.pingTick false) openState).2.countP isSched = 0 := by
  exact ⟨by decide, by decide, by decide, by decide⟩

/-- C5 amended: a heartbeat send failure is caught inside `sendPing` and
only logged: the machine state is completely unchanged, no frame goes
out, and no reconnection is scheduled — recovery waits for the
transport's own close or error event. -/
theorem C5_ping_failure_swallowed (env : Env) (s : MachineState) :
    (step env (.pingTick false) s).1 = s ∧
    (step env (.pingTick false) s).2.countP isSched = 0 ∧
    ∀ f, Effect.sent f ∉ (step env (.pingTick false) s).2 := by
  cases hpi : s.pingInterval with
  | none => simp [step, hpi]
  | some p =>
    simp only [step, hpi]
    exact ⟨by simp, (sendPing_fail_effects s).1, (sendPing_fail_effects s).2⟩

/-- Witness for C5 at the concrete connected state. -/
theorem C5_ping_failure_swallowed_witness :
    (step env0 (.pingTick false) openState).1 = openState ∧
    Effect.sent .ping ∉ (step env0 (.pingTick false) openState).2 :=
  ⟨(C5_ping_failure_swallowed env0 openState).1,
   (C5_ping_failure_swallowed env0 openState).2.2 .ping⟩

/-- The close handler on an abnormal code increments the counter and
schedules exactly one reconnect — on every invocation, with no
idempotence guard. -/
theorem onclose_abnormal (code : Nat) (s : MachineState) (h : code ≠ 1000) :
    (onclose code s).1.reconnectAttempts = s.reconnectAttempts + 1 ∧
    (onclose code s).2.countP isSched = 1 := by
  unfold onclose stopPingInterval
  rw [if_pos h]
  exact ⟨rfl, rfl⟩

/-- C6 counterexample: in the concrete connected state (socket 0 OPEN),
invoking `connect` constructs a second WebSocket (id 1) and overwrites
the ref — there is no guard against a live CONNECTING/OPEN connection. -/
theorem C6_connect_while_open_cex :
    openState.isConnected = true ∧
    openState.wsRef = some ⟨0, ReadyState.openSt⟩ ∧
    Effect.createdWS 1 ∈ (step env0 (.connectCall true) openState).2 ∧
    (step env0 (.connectCall true) openState).1.wsRef
      = some ⟨1, ReadyState.connecting⟩ := by
  exact ⟨by decide, by decide, by decide, by decide⟩

/-- C6 amended: `connect` guards only on authentication and the attempt
cap — in any state below the cap, including one whose socket is
CONNECTING/OPEN, it constructs a fresh WebSocket and overwrites `wsRef`;
and the close handler is not idempotent: each invocation on an abnormal
code increments the counter and schedules another reconnect, so two
deliveries increment twice. -/
theorem C6_no_live_connection_guard :
    (∀ (env : Env) (s : MachineState),
      env.isAuthenticated = true → env.token.isSome = true →
      s.reconnectAttempts < MAX_RECONNECT_ATTEMPTS →
      Effect.createdWS s.nextId ∈ (connect env true s).2 ∧
      (connect env true s).1.wsRef = some ⟨s.nextId, ReadyState.connecting⟩) ∧
    (∀ (code : Nat) (s : MachineState), code ≠ 1000 →
      (onclose code s).1.reconnectAttempts = s.reconnectAttempts + 1 ∧
      (onclose code s).2.countP isSched = 1 ∧
      (onclose code (onclose code s).1).1.reconnectAttempts
        = s.reconnectAttempts + 2) := by
  constructor
  · intro env s hauth htok hcap
    unfold connect
    rw [if_neg (not_not_intro ⟨hauth, htok⟩), if_neg (Nat.not_le.mpr hcap),
        if_pos rfl]
    constructor
    · simp
    · rfl
  · intro code s hcode
    refine ⟨(onclose_abnormal code s hcode).1, (onclose_abnormal code s hcode).2, ?_⟩
    rw [(onclose_abnormal code (onclose code s).1 hcode).1,
        (onclose_abnormal code s hcode).1]

/-- Witness for C6: a second socket is created while socket 0 is OPEN,
and a first abnormal close increments the counter. -/
theorem C6_no_live_connection_guard_witness :
    (env0.isAuthenticated = true ∧ env0.token.isSome = true ∧
     openState.reconnectAttempts < MAX_RECONNECT_ATTEMPTS ∧
     Effect.createdWS openState.nextId ∈ (connect env0 true openState).2) ∧
    ((1006 : Nat) ≠ 1000 ∧
     (onclose 1006 initState).1.reconnectAttempts
       = initState.reconnectAttempts + 1) :=
  ⟨⟨rfl, rfl, by decide,
    (C6_no_live_connection_guard.1 env0 openState rfl rfl (by decide)).1⟩,
   ⟨by decide, (C6_no_live_connection_guard.2 1006 initState (by decide)).1⟩⟩

/-- C7: `disconnect` from any state stops the heartbeat interval, cancels
the pending reconnect timeout, closes the socket (when one exists) with
the normal-closure code 1000 and nulls the ref, and leaves the machine
disconnected; every socket close it issues carries code 1000; and a
second `disconnect` is a state-level no-op emitting only a log line —
calling it twice has the same effect as calling it once. -/
theorem C7_disconnect_cleanup_idempotent :
    ∀ s : MachineState,
      (disconnect s).1.pingInterval = none ∧
      (disconnect s).1.reconnectTimer = none ∧
      (disconnect s).1.wsRef = none ∧
      (disconnect s).1.isConnected = false ∧
      (∀ c, s.wsRef = some c →
        Effect.closedWS c.id 1000 ∈ (disconnect s).2) ∧
      (∀ i code, Effect.closedWS i code ∈ (disconnect s).2 → code = 1000) ∧
      disconnect (disconnect s).1
        = ((disconnect s).1, [.logged "disconnecting"]) := by
  intro s
  rcases hws : s.wsRef with _ | c
  · simp [disconnect, stopPingInterval, hws]
  · simp [disconnect, stopPingInterval, hws]

/-- Witness for C7 at the concrete connected state. -/
theorem C7_disconnect_cleanup_idempotent_witness :
    openState.wsRef = some ⟨0, ReadyState.openSt⟩ ∧
    Effect.closedWS 0 1000 ∈ (disconnect openState).2 :=
  ⟨by decide,
   (C7_disconnect_cleanup_idempotent openState).2.2.2.2.1
     ⟨0, ReadyState.openSt⟩ (by decide)⟩

/-- C8: the open handler installs the heartbeat with the fixed period
`PING_INTERVAL = 30000` ms, and a tick on an OPEN socket emits the ping
frame.  The instant the state leaves OPEN the heartbeat is silenced: the
close handler, the error handler and `disconnect` all clear the interval,
a tick with no interval installed emits nothing, and even a stale tick
finds `sendPing` refusing to send on a non-OPEN socket. -/
theorem C8_heartbeat_discipline :
    (∀ (env : Env) (s : MachineState) (c : Conn),
      s.wsRef = some c → c.readyState = ReadyState.connecting →
      (step env .transportOpen s).1.pingInterval = some PING_INTERVAL) ∧
    (∀ (env : Env) (s : MachineState) (c : Conn) (p : Nat),
      s.pingInterval = some p → s.wsRef = some c →
      c.readyState = ReadyState.openSt →
      Effect.sent .ping ∈ (step env (.pingTick true) s).2) ∧
    (∀ (env : Env) (s : MachineState) (c : Conn) (code : Nat),
      s.wsRef = some c → c.readyState ≠ ReadyState.closedSt →
      (step env (.transportClose code) s).1.pingInterval = none) ∧
    (∀ (env : Env) (s : MachineState) (c : Conn),
      s.wsRef = some c →
      (step env .transportError s).1.pingInterval = none) ∧
    (∀ s : MachineState, (disconnect s).1.pingInterval = none) ∧
    (∀ (env : Env) (ok : Bool) (s : MachineState),
      s.pingInterval = none → (step env (.pingTick ok) s).2 = []) ∧
    (∀ (ok : Bool) (s : MachineState) (c : Conn),
      s.wsRef = some c → c.readyState ≠ ReadyState.openSt →
      sendPing ok s = []) := by
  refine ⟨?_, ?_, ?_, ?_, ?_, ?_, ?_⟩
  · intro env s c hws hrs
    simp [step, hws, hrs, onopen, startPingInterval]
  · intro env s c p hpi hws hrs
    simp [step, hpi, sendPing, hws, hrs]
  · intro env s c code hws hne
    simp only [step, hws]
    rw [if_pos hne]
    unfold onclose stopPingInterval
    split <;> rfl
  · intro env s c hws
    simp [step, hws, onerror, stopPingInterval]
  · intro s
    rcases hws : s.wsRef with _ | c <;>
      simp [disconnect, stopPingInterval, hws]
  · intro env ok s hpi
    simp [step, hpi]
  · intro ok s c hws hne
    simp only [sendPing, hws]
    rw [if_neg hne]

/-- Witness for C8 at the concrete connected state. -/
theorem C8_heartbeat_discipline_witness :
    openState.pingInterval = some PING_INTERVAL ∧
    Effect.sent .ping ∈ (step env0 (.pingTick true) openState).2 ∧
    (step env0 (.transportClose 1006) openState).1.pingInterval = none :=
  ⟨by decide,
   C8_heartbeat_discipline.2.1 env0 openState ⟨0, ReadyState.openSt⟩
     PING_INTERVAL (by decide) (by decide) rfl,
   C8_heartbeat_discipline.2.2.1 env0 openState ⟨0, ReadyState.openSt⟩ 1006
     (by decide) (by decide)⟩

/-- C9: the dispatcher is a total function that never changes the machine
state (it never terminates the connection; in the source the whole switch
is wrapped in try/catch, modelled here by totality); its effects are only
log lines and query invalidations — never a frame send, a socket close, a
socket creation or a timer; a frame that fails to parse yields exactly
one log line; and a well-formed envelope whose `type` lies outside the
recognized vocabulary yields only log lines — no invalidation. -/
theorem C9_dispatcher_drops_bad_frames :
    (∀ (env : Env) (d : Option ParsedMsg) (s : MachineState),
      (step env (.message d) s).1 = s) ∧
    (∀ d : Option ParsedMsg,
      (handleMessage d).all (fun e => isLog e || isInval e) = true) ∧
    handleMessage none = [.logged "parse_error"] ∧
    (∀ m : ParsedMsg, m.type_ ∉ recognizedTypes →
      (handleMessage (some m)).all isLog = true) := by
  refine ⟨fun env d s => rfl, handleMessage_only_log_inval, rfl, ?_⟩
  intro m hm
  rcases m with ⟨t⟩
  simp only [handleMessage]
  split
  all_goals first
    | rfl
    | simp [recognizedTypes] at hm

/-- Witness for C9 at an unrecognized envelope type. -/
theorem C9_dispatcher_drops_bad_frames_witness :
    ((⟨some "bogus"⟩ : ParsedMsg).type_ ∉ recognizedTypes) ∧
    (handleMessage (some ⟨some "bogus"⟩)).all isLog = true ∧
    (step env0 (.message none) openState).1 = openState :=
  ⟨by decide,
   C9_dispatcher_drops_bad_frames.2.2.2 ⟨some "bogus"⟩ (by decide),
   C9_dispatcher_drops_bad_frames.1 env0 none openState⟩

/-- `disconnect` leaves the retry counter untouched. -/
theorem disconnect_preserves_attempts (s : MachineState) :
    (disconnect s).1.reconnectAttempts = s.reconnectAttempts := by
  rcases hws : s.wsRef with _ | c <;>
    simp [disconnect, stopPingInterval, hws]

/-- `connect` either preserves the counter or increments it by one. -/
theorem connect_attempts (env : Env) (ok : Bool) (s : MachineState) :
    (connect env ok s).1.reconnectAttempts = s.reconnectAttempts ∨
    (connect env ok s).1.reconnectAttempts = s.reconnectAttempts + 1 := by
  unfold connect
  split
  · exact Or.inl rfl
  · split
    · exact Or.inl rfl
    · split
      · exact Or.inl rfl
      · dsimp only
        split
        · exact Or.inr rfl
        · exact Or.inr rfl

/-- The close handler either preserves the counter (normal closure) or
increments it by one. -/
theorem onclose_attempts (code : Nat) (s : MachineState) :
    (onclose code s).1.reconnectAttempts = s.reconnectAttempts ∨
    (onclose code s).1.reconnectAttempts = s.reconnectAttempts + 1 := by
  unfold onclose stopPingInterval
  split
  · exact Or.inr rfl
  · exact Or.inl rfl

/-- C10: the retry counter is zeroed at exactly one site, the
transport-open handler: any step that brings the counter to 0 either
started from 0 or is a `transportOpen` event; `disconnect` leaves the
counter unchanged; and a count at the cap survives `disconnect`, so a
subsequent `connect` still refuses to construct a socket. -/
theorem C10_counter_reset_single_site :
    (∀ s : MachineState,
      (disconnect s).1.reconnectAttempts = s.reconnectAttempts) ∧
    (∀ (env : Env) (e : Event) (s : MachineState),
      (step env e s).1.reconnectAttempts = 0 →
      s.reconnectAttempts = 0 ∨ e = Event.transportOpen) ∧
    (∀ (env : Env) (ok : Bool) (s : MachineState),
      MAX_RECONNECT_ATTEMPTS ≤ s.reconnectAttempts →
      (step env (.connectCall ok) (disconnect s).1).2.countP isCreate = 0) := by
  refine ⟨disconnect_preserves_attempts, ?_, ?_⟩
  · intro env e s h
    cases e with
    | connectCall ok =>
      rcases connect_attempts env ok s with hc | hc
      · rw [show (step env (.connectCall ok) s) = connect env ok s from rfl, hc] at h
        exact Or.inl h
      · rw [show (step env (.connectCall ok) s) = connect env ok s from rfl, hc] at h
        exact absurd h (Nat.succ_ne_zero _)
    | timerFire ok =>
      cases hrt : s.reconnectTimer with
      | none =>
        simp only [step, hrt] at h
        exact Or.inl h
      | some t =>
        simp only [step, hrt] at h
        rcases connect_attempts env ok { s with reconnectTimer := none } with hc | hc
        · rw [hc] at h
          exact Or.inl h
        · rw [hc] at h
          exact absurd h (Nat.succ_ne_zero _)
    | transportOpen => exact Or.inr rfl
    | message d =>
      simp only [step] at h
      exact Or.inl h
    | transportClose code =>
      cases hws : s.wsRef with
      | none =>
        simp only [step, hws] at h
        exact Or.inl h
      | some c =>
        simp only [step, hws] at h
        by_cases hne : c.readyState ≠ ReadyState.closedSt
        · rw [if_pos hne] at h
          rcases onclose_attempts code { s with wsRef := some ⟨c.id, ReadyState.closedSt⟩ } with hc | hc
          · rw [hc] at h
            exact Or.inl h
          · rw [hc] at h
            exact absurd h (Nat.succ_ne_zero _)
        · rw [if_neg hne] at h
          exact Or.inl h
    | transportError =>
      cases hws : s.wsRef with
      | none =>
        simp only [step, hws] at h
        exact Or.inl h
      | some c =>
        simp only [step, hws, onerror, stopPingInterval] at h
        exact Or.inl h
    | pingTick ok =>
      cases hpi : s.pingInterval with
      | none =>
        simp only [step, hpi] at h
        exact Or.inl h
      | some p =>
        simp only [step, hpi] at h
        exact Or.inl h
    | disconnectCall =>
      rw [show (step env .disconnectCall s) = disconnect s from rfl,
          disconnect_preserves_attempts s] at h
      exact Or.inl h
  · intro env ok s h
    have hd := disconnect_preserves_attempts s
    have hcap := connect_at_cap env ok (disconnect s).1 (by rw [hd]; exact h)
    exact (all_isLog_no_create_sched _ hcap.2.2.2).1

/-- Witness for C10: a no-op step keeps the counter at 0, and the capped
count survives a `disconnect`. -/
theorem C10_counter_reset_single_site_witness :
    ((step env0 (.message none) openState).1.reconnectAttempts = 0 ∧
     (openState.reconnectAttempts = 0 ∨
       Event.message none = Event.transportOpen)) ∧
    (MAX_RECONNECT_ATTEMPTS ≤ degradedState.reconnectAttempts ∧
     (step env0 (.connectCall true) (disconnect degradedState).1).2.countP isCreate
       = 0) :=
  ⟨⟨by decide,
    C10_counter_reset_single_site.2.1 env0 (.message none) openState (by decide)⟩,
   ⟨by decide,
    C10_counter_reset_single_site.2.2 env0 true degradedState (by decide)⟩⟩

end HyconWS
